import Mathlib

/-!
Verification of the crypto resource manager and dispatch loop of the
nitrokey-3-firmware repository (`src/components/crypto-service/src/service.rs`).

Bytes are modelled as `Nat` values (reduced `% 256` where the Rust `u8` type
forces it), byte buffers as `List Nat`, and the stateful Rust methods as
explicit state-passing functions over a `ServiceResources` record.  Types and
functions whose Rust sources are not part of the provided tree
(`api.rs`, `types.rs`, `error.rs`, `config.rs`, `pipe.rs`, and the external
`chacha20poly1305` crate) are modelled from the specification; each such
definition carries a doc comment saying so.
-/

/-- Modelled from the spec: the error taxonomy of §7 (`error.rs` is not in
`src/`): EntropyMalfunction, AeadError, MechanismNotAvailable,
RequestNotAvailable, FilesystemWriteFailure. -/
inductive Error where
  | EntropyMalfunction
  | AeadError
  | MechanismNotAvailable
  | RequestNotAvailable
  | FilesystemWriteFailure
deriving DecidableEq, Repr

/-- Modelled from the spec: `Mechanism` is "an enumerated tag selecting an
asymmetric-key algorithm family (currently: Ed25519 signature keys; additional
variants are expected to be added over time)" (`api.rs` is not in `src/`).
The not-yet-supported variants are collapsed into one indexed constructor. -/
inductive Mechanism where
  | Ed25519
  | Unimplemented (tag : Nat)
deriving DecidableEq, Repr

/-- Modelled from the spec: a `UniqueId` is a 16-byte value drawn from the
entropy source (`types.rs` is not in `src/`).  The wrapped field is the
`[u8; 16]` payload. -/
structure UniqueId where
  id : List Nat
deriving DecidableEq, Repr

/-- Modelled from the spec: a `KeyHandle` wraps a `UniqueId` (`api.rs` is not
in `src/`). -/
structure KeyHandle where
  key_id : UniqueId
deriving DecidableEq, Repr

/-- Modelled from the spec: the payload of a `GenerateKeypair` request — the
mechanism tag the caller selects (`api.rs` is not in `src/`). -/
structure GenerateKeypairRequest where
  mechanism : Mechanism
deriving DecidableEq, Repr

/-- Modelled from the spec: the payload of a `GenerateKey` reply — the key
handle returned to the client (`api.rs` is not in `src/`). -/
structure GenerateKeyReply where
  key_handle : KeyHandle
deriving DecidableEq, Repr

/-- Modelled from the spec: `Request` is "a closed, tagged set of operation
requests (e.g. GenerateKeypair, a no-op DummyRequest placeholder, and others
not yet implemented)" (`api.rs` is not in `src/`).  The not-yet-implemented
request tags are collapsed into one indexed constructor. -/
inductive Request where
  | DummyRequest
  | GenerateKeypair (r : GenerateKeypairRequest)
  | NotYetImplemented (tag : Nat)
deriving DecidableEq, Repr

/-- Modelled from the spec: the tagged replies — `GenerateKey` carrying a
`KeyHandle`, and `DummyReply` (`api.rs` is not in `src/`). -/
inductive Reply where
  | DummyReply
  | GenerateKey (r : GenerateKeyReply)
deriving DecidableEq, Repr

/-- The AEAD key type: 32 bytes (`AeadKey` in `types.rs`, modelled as a byte
list). -/
abbrev AeadKey := List Nat

/-- The AEAD nonce type: 12 bytes (`AeadNonce` in `types.rs`, modelled as a
byte list). -/
abbrev AeadNonce := List Nat

/-- The AEAD tag type (`AeadTag` in `types.rs`); see `macTag` for how the tag
of the modelled primitive is formed. -/
abbrev AeadTag := List Nat

/-- A lowercase hexadecimal digit character (ASCII code) for a value
`0 ≤ n < 16`: `0`–`9` are codes 48–57, `a`–`f` are codes 97–102. -/
def hexDigit (n : Nat) : Nat :=
  if n < 10 then 48 + n else 87 + n

/-- Hex-encode a byte list: each byte becomes two lowercase hex digit
characters, high nibble first. -/
def hexBytes : List Nat → List Nat
  | [] => []
  | b :: rest => hexDigit (b / 16) :: hexDigit (b % 16) :: hexBytes rest

/-- Modelled from the spec: `UniqueId::hex` (`types.rs` is not in `src/`):
the identifier "rendered as a fixed-width lowercase hexadecimal string
(32 characters) for use as a storage path component". -/
def UniqueId.hex (u : UniqueId) : List Nat :=
  hexBytes u.id

/-- Modelled from the spec: one keystream byte of the external AEAD primitive
(ChaCha8Poly1305 from the `chacha20poly1305` crate, whose implementation is
not part of this repository's sources).  The spec fixes only its interface:
a deterministic function of key, nonce and position whose XOR turns plaintext
into ciphertext "of identical length". -/
def ksByte (key nonce : List Nat) (i : Nat) : Nat :=
  (key.getD (i % 32) 0 + nonce.getD (i % 12) 0 + i) % 256

/-- XOR a buffer against the keystream starting at position `i`.  Applying it
twice at the same position restores the buffer (`xorKs_xorKs`). -/
def xorKs (key nonce : List Nat) (i : Nat) : List Nat → List Nat
  | [] => []
  | b :: rest => (b ^^^ ksByte key nonce i) :: xorKs key nonce (i + 1) rest

/-- Modelled from the spec: the authentication tag of the external AEAD
primitive (ChaCha8Poly1305, not part of this repository's sources), as an
ideal MAC: a digest that verification recomputes over
(key, nonce, associated data, ciphertext) and compares; the spec's contract
is that it authenticates all four, so the model makes the digest injective
in them (length-prefixed concatenation). -/
def macTag (key nonce ad ct : List Nat) : AeadTag :=
  key.length :: (key ++ (nonce.length :: (nonce ++ (ad.length :: (ad ++ ct)))))

/-- Modelled from the spec: `encrypt_in_place_detached` of the external AEAD
primitive — encrypts the buffer in place (keystream XOR) and returns the tag
computed over the associated data and the resulting ciphertext.  "The
primitive itself is not expected to fail for well-formed input", so it is
total. -/
def encrypt_in_place_detached (key nonce ad buf : List Nat) :
    List Nat × AeadTag :=
  let ct := xorKs key nonce 0 buf
  (ct, macTag key nonce ad ct)

/-- Modelled from the spec: `decrypt_in_place_detached` of the external AEAD
primitive — recomputes the tag over the associated data and the ciphertext,
compares it with the presented tag, and only on a match decrypts the buffer
in place; otherwise it fails. -/
def decrypt_in_place_detached (key nonce ad buf : List Nat) (tag : AeadTag) :
    Option (List Nat) :=
  if macTag key nonce ad buf = tag then some (xorKs key nonce 0 buf) else none

/-- The state of `ServiceResources` (service.rs:18-30): the entropy source
(modelled as the stream of bytes it will produce, reduced `% 256` when read),
and the two filesystems, each modelled as the list of `(path, contents)`
files written to it, in write order (`pfs` is the persistent store, `vfs`
the volatile store). -/
structure ServiceResources where
  rng : List Nat
  pfs : List (List Nat × List Nat)
  vfs : List (List Nat × List Nat)
deriving DecidableEq, Repr

/-- Modelled from the spec: the entropy source contract (`RngRead` comes from
the external `embedded_hal` crate): "read(buffer) -> Result<(), Fault> —
fills the buffer with random bytes or fails; no partial fills are acceptable
(all-or-nothing)".  Reading `n` bytes succeeds exactly when the stream still
holds `n` values and consumes them. -/
def rngRead (st : ServiceResources) (n : Nat) :
    Option (List Nat × ServiceResources) :=
  if n ≤ st.rng.length then
    some ((st.rng.take n).map (· % 256), { st with rng := st.rng.drop n })
  else
    none

/-- `ServiceResources::get_aead_key` (service.rs:45-47): returns the constant
key `[37u8; 32]`. -/
def get_aead_key (_st : ServiceResources) : Except Error AeadKey :=
  .ok (List.replicate 32 37)

/-- `ServiceResources::get_aead_nonce` (service.rs:50-52): returns the
constant nonce `[42u8; 12]`. -/
def get_aead_nonce (_st : ServiceResources) : Except Error AeadNonce :=
  .ok (List.replicate 12 42)

/-- `ServiceResources::aead_in_place` (service.rs:56-70): fetch key and nonce
(each via `?`), encrypt the buffer in place, and return the nonce, the tag
and the new buffer contents.  The `.unwrap()` on the primitive's result means
a primitive failure would panic rather than surface as an error; the modelled
primitive is total, so the unwrap always succeeds. -/
def aead_in_place (st : ServiceResources) (ad buf : List Nat) :
    Except Error (AeadNonce × AeadTag × List Nat) :=
  match get_aead_key st with
  | .error e => .error e
  | .ok key =>
    match get_aead_nonce st with
    | .error e => .error e
    | .ok nonce =>
      let (ct, tag) := encrypt_in_place_detached key nonce ad buf
      .ok (nonce, tag, ct)

/-- `ServiceResources::adad_in_place` (service.rs:72-84): fetch the key
(via `?`), run the primitive's detached decryption, and map any failure of
the primitive to `Error::AeadError`.  Returns the decrypted buffer
contents. -/
def adad_in_place (st : ServiceResources) (nonce : AeadNonce) (ad buf : List Nat)
    (tag : AeadTag) : Except Error (List Nat) :=
  match get_aead_key st with
  | .error e => .error e
  | .ok key =>
    match decrypt_in_place_detached key nonce ad buf tag with
    | some pt => .ok pt
    | none => .error .AeadError

/-- `ServiceResources::generate_unique_id` (service.rs:160-169): draw 16
bytes from the entropy source (`EntropyMalfunction` on failure) and wrap them
as a `UniqueId`. -/
def generate_unique_id (st : ServiceResources) :
    Except Error UniqueId × ServiceResources :=
  match rngRead st 16 with
  | none => (.error .EntropyMalfunction, st)
  | some (bytes, st') => (.ok ⟨bytes⟩, st')

/-- `ServiceResources::store_serialized_key` (service.rs:171-187): create a
file at `path`, write the serialized key, and sync.  The filesystem used is
`self.vfs` — the volatile store (service.rs:178).  The stores are modelled as
capturing stores that record every write and never fail, so the
`FilesystemWriteFailure` branches are not taken. -/
def store_serialized_key (st : ServiceResources) (path serialized_key : List Nat) :
    Except Error Unit × ServiceResources :=
  (.ok (), { st with vfs := st.vfs ++ [(path, serialized_key)] })

/-- `ServiceResources::generate_ed25519_keypair` (service.rs:124-158):
draw a 32-byte seed, generate a `UniqueId`, AEAD-encrypt a copy of the id in
place (associated data empty), build the 33-byte path `"/" ++ hex(id)` from
the plaintext id, store the seed at that path, and reply with a `KeyHandle`
wrapping the id. -/
def generate_ed25519_keypair (st : ServiceResources)
    (_request : GenerateKeypairRequest) : Except Error Reply × ServiceResources :=
  match rngRead st 32 with
  | none => (.error .EntropyMalfunction, st)
  | some (seed, st1) =>
    match generate_unique_id st1 with
    | (.error e, st2) => (.error e, st2)
    | (.ok unique_id, st2) =>
      let u := unique_id.id
      match aead_in_place st2 [] u with
      | .error e => (.error e, st2)
      | .ok (_nonce, _tag, _u_encrypted) =>
        let path := 47 :: unique_id.hex
        match store_serialized_key st2 path seed with
        | (.error e, st3) => (.error e, st3)
        | (.ok _, st3) =>
          (.ok (.GenerateKey { key_handle := { key_id := unique_id } }), st3)

/-- `ServiceResources::reply_to` (service.rs:86-122): the dispatch table over
the request tag — `DummyRequest ↦ DummyReply`, `GenerateKeypair` gated on the
mechanism (`Ed25519 ↦ generate_ed25519_keypair`, anything else
`MechanismNotAvailable`), every other tag `RequestNotAvailable`. -/
def reply_to (st : ServiceResources) (request : Request) :
    Except Error Reply × ServiceResources :=
  match request with
  | .DummyRequest => (.ok .DummyReply, st)
  | .GenerateKeypair r =>
    match r.mechanism with
    | .Ed25519 => generate_ed25519_keypair st r
    | .Unimplemented _ => (.error .MechanismNotAvailable, st)
  | .NotYetImplemented _ => (.error .RequestNotAvailable, st)

deriving instance DecidableEq for Except

/-- Modelled from the spec: a `ServiceEndpoint` (`pipe.rs` is not in `src/`)
"holds one inbound and one outbound queue": the inbound FIFO of pending
requests, the outbound FIFO of replies, and the outbound queue's fixed
capacity. -/
structure ServiceEndpoint where
  recv : List Request
  send : List (Except Error Reply)
  sendCap : Nat
deriving DecidableEq, Repr, Inhabited

/-- Modelled from the spec: `ep.send.ready()` — "an endpoint is ready for
dispatch only when its outbound queue has capacity for a reply". -/
def ep_ready (ep : ServiceEndpoint) : Bool :=
  ep.send.length < ep.sendCap

/-- Modelled from the spec: `MAX_SERVICE_CLIENTS` (`config.rs` is not in
`src/`): the "fixed, small upper bound on the number of endpoints".  The
exact constant is not given; a representative value is used — no claim
depends on its magnitude. -/
def MAX_SERVICE_CLIENTS : Nat := 2

/-- The state of `Service` (service.rs:32-40): the bounded endpoint
collection and the owned resources. -/
structure Service where
  eps : List ServiceEndpoint
  resources : ServiceResources
deriving DecidableEq, Repr

/-- `Service::add_endpoint` (service.rs:209-211): `self.eps.push(ep)` on the
bounded vector — appends when below `MAX_SERVICE_CLIENTS`, otherwise fails
returning the endpoint (the push semantics of the bounded `heapless::Vec`
are modelled from the spec: "fails (returning the endpoint unchanged) if the
fixed maximum endpoint count is already reached"). -/
def add_endpoint (s : Service) (ep : ServiceEndpoint) :
    Except ServiceEndpoint Unit × Service :=
  if s.eps.length < MAX_SERVICE_CLIENTS then
    (.ok (), { s with eps := s.eps ++ [ep] })
  else
    (.error ep, s)

/-- One iteration of the loop body of `Service::process` (service.rs:219-228)
for a single endpoint: skip unless the outbound queue is ready; otherwise
dequeue at most one request, serve it through `reply_to`, and enqueue the
result (the enqueue follows a successful readiness check, so it succeeds;
its `Result` is discarded with `.ok()` in the source). -/
def processEp (res : ServiceResources) (ep : ServiceEndpoint) :
    ServiceEndpoint × ServiceResources :=
  if ep_ready ep then
    match ep.recv with
    | [] => (ep, res)
    | request :: rest =>
      ({ ep with recv := rest, send := ep.send ++ [(reply_to res request).1] },
       (reply_to res request).2)
  else
    (ep, res)

/-- The fold of `processEp` over the endpoint list in registration order,
threading the shared resources. -/
def processEps (res : ServiceResources) :
    List ServiceEndpoint → List ServiceEndpoint × ServiceResources
  | [] => ([], res)
  | ep :: rest =>
    ((processEp res ep).1 :: (processEps (processEp res ep).2 rest).1,
     (processEps (processEp res ep).2 rest).2)

/-- `Service::process` (service.rs:214-230): serve every endpoint in
registration order, at most one request each. -/
def process (s : Service) : Service :=
  { eps := (processEps s.resources s.eps).1,
    resources := (processEps s.resources s.eps).2 }

/-- Modelled from the spec: §4.1's `generateKeypair(mechanism)` — step 1
rejects an unsupported mechanism with `MechanismNotAvailable`, the supported
`Ed25519` variant runs the Ed25519 key-generation routine.  Used to state
that `reply_to` delegates `GenerateKeypair` to the key-generation routine. -/
def spec_generateKeypair (st : ServiceResources) (r : GenerateKeypairRequest) :
    Except Error Reply × ServiceResources :=
  match r.mechanism with
  | .Ed25519 => generate_ed25519_keypair st r
  | .Unimplemented _ => (.error .MechanismNotAvailable, st)

/-- ASCII code of a lowercase hexadecimal digit: `0`–`9` (codes 48–57) or
`a`–`f` (codes 97–102). -/
def isLowerHexAscii (c : Nat) : Bool :=
  (48 ≤ c && c ≤ 57) || (97 ≤ c && c ≤ 102)

/-- `hexDigit` of a nibble is a lowercase hexadecimal digit character. -/
lemma hexDigit_lower {n : Nat} (h : n < 16) : isLowerHexAscii (hexDigit n) = true := by
  rcases Nat.lt_or_ge n 10 with h10 | h10
  · simp only [hexDigit, isLowerHexAscii, if_pos h10]
    simp only [Bool.or_eq_true, Bool.and_eq_true, decide_eq_true_eq]
    omega
  · simp only [hexDigit, isLowerHexAscii, if_neg (Nat.not_lt.mpr h10)]
    simp only [Bool.or_eq_true, Bool.and_eq_true, decide_eq_true_eq]
    omega

/-- Hex encoding doubles the length. -/
lemma hexBytes_length (l : List Nat) : (hexBytes l).length = 2 * l.length := by
  induction l with
  | nil => rfl
  | cons b rest ih => simp [hexBytes, ih]; omega

/-- Hex encoding of bytes yields only lowercase hexadecimal digit
characters. -/
lemma hexBytes_lower {l : List Nat} (h : ∀ b ∈ l, b < 256) :
    ∀ c ∈ hexBytes l, isLowerHexAscii c = true := by
  induction l with
  | nil => intro c hc; simp [hexBytes] at hc
  | cons b rest ih =>
    intro c hc
    simp only [hexBytes, List.mem_cons] at hc
    rcases hc with h1 | h1 | h1
    · subst h1
      exact hexDigit_lower (by have := h b (by simp); omega)
    · subst h1
      exact hexDigit_lower (Nat.mod_lt _ (by omega))
    · exact ih (fun x hx => h x (by simp [hx])) c h1

/-- XOR-ing against the keystream twice at the same offset restores the
buffer. -/
lemma xorKs_xorKs (key nonce : List Nat) (i : Nat) (l : List Nat) :
    xorKs key nonce i (xorKs key nonce i l) = l := by
  induction l generalizing i with
  | nil => rfl
  | cons b rest ih => simp [xorKs, ih, Nat.xor_cancel_right]

/-- The modelled tag digest is injective in the associated data and the
ciphertext for a fixed key and nonce. -/
lemma macTag_inj {key nonce ad ad' ct ct' : List Nat}
    (h : macTag key nonce ad' ct' = macTag key nonce ad ct) :
    ad' = ad ∧ ct' = ct := by
  unfold macTag at h
  injection h with h0 h1
  have h2 := List.append_cancel_left h1
  injection h2 with h3 h4
  have h5 := List.append_cancel_left h4
  injection h5 with h6 h7
  exact List.append_inj h7 h6

/-- A not-ready endpoint is left exactly as it was, and so are the
resources. -/
lemma processEp_not_ready {res : ServiceResources} {ep : ServiceEndpoint}
    (h : ep_ready ep = false) : processEp res ep = (ep, res) := by
  simp [processEp, h]

/-- The inbound queue after one `processEp` step: its tail when the endpoint
was ready, otherwise unchanged. -/
lemma processEp_recv (res : ServiceResources) (ep : ServiceEndpoint) :
    ((processEp res ep).1).recv =
      if ep_ready ep then ep.recv.tail else ep.recv := by
  cases hb : ep_ready ep with
  | false => simp [processEp, hb]
  | true => cases hr : ep.recv <;> simp [processEp, hb, hr]

/-- `processEps` preserves the number of endpoints. -/
lemma processEps_length (res : ServiceResources) (eps : List ServiceEndpoint) :
    ((processEps res eps).1).length = eps.length := by
  induction eps generalizing res with
  | nil => rfl
  | cons ep rest ih => simp [processEps, ih]

/-- Each endpoint of the output of `processEps` is its input endpoint pushed
through `processEp` under some intermediate resource state. -/
lemma processEps_getD (res : ServiceResources) (eps : List ServiceEndpoint)
    (i : Nat) (h : i < eps.length) :
    ∃ res' : ServiceResources,
      ((processEps res eps).1).getD i default =
        (processEp res' (eps.getD i default)).1 := by
  induction eps generalizing res i with
  | nil => exact absurd h (by simp)
  | cons ep rest ih =>
    cases i with
    | zero => exact ⟨res, by simp [processEps]⟩
    | succ j =>
      obtain ⟨r', hr'⟩ := ih (processEp res ep).2 j (by simpa using h)
      exact ⟨r', by simpa [processEps] using hr'⟩

/-- The inbound queue of the `i`-th endpoint after `processEps`: its tail
when that endpoint was ready, otherwise unchanged. -/
lemma processEps_recv_getD (res : ServiceResources) (eps : List ServiceEndpoint)
    (i : Nat) (h : i < eps.length) :
    (((processEps res eps).1).getD i default).recv =
      if ep_ready (eps.getD i default) then (eps.getD i default).recv.tail
      else (eps.getD i default).recv := by
  obtain ⟨r', hr'⟩ := processEps_getD res eps i h
  rw [hr', processEp_recv]

/-- A not-ready endpoint passes through `processEps` unchanged. -/
lemma processEps_not_ready_getD (res : ServiceResources)
    (eps : List ServiceEndpoint) (i : Nat) (h : i < eps.length)
    (hn : ep_ready (eps.getD i default) = false) :
    ((processEps res eps).1).getD i default = eps.getD i default := by
  obtain ⟨r', hr'⟩ := processEps_getD res eps i h
  rw [hr', processEp_not_ready hn]

/-- C10: `aead_in_place` is total over its inputs and never returns an error:
for every state, associated data and plaintext buffer it returns `Ok`, the
nonce it returns is always the constant `[42; 12]`, and the AEAD key is
always the constant `[37; 32]` — so the `EntropyMalfunction` failure mode the
spec attributes to nonce derivation is unreachable. -/
theorem C10_aead_total_constant_key_nonce (st : ServiceResources)
    (ad buf : List Nat) :
    aead_in_place st ad buf =
      .ok (List.replicate 12 42,
           macTag (List.replicate 32 37) (List.replicate 12 42) ad
             (xorKs (List.replicate 32 37) (List.replicate 12 42) 0 buf),
           xorKs (List.replicate 32 37) (List.replicate 12 42) 0 buf) ∧
    get_aead_key st = .ok (List.replicate 32 37) ∧
    get_aead_nonce st = .ok (List.replicate 12 42) :=
  ⟨rfl, rfl, rfl⟩

/-- C2: encrypting a buffer in place with `aead_in_place` and then decrypting
the resulting ciphertext with `adad_in_place` using the returned nonce and
tag and the same associated data succeeds and restores the original
plaintext exactly. -/
theorem C2_aead_roundtrip (st : ServiceResources) (ad buf : List Nat)
    (nonce : AeadNonce) (tag : AeadTag) (ct : List Nat)
    (h : aead_in_place st ad buf = .ok (nonce, tag, ct)) :
    adad_in_place st nonce ad ct tag = .ok buf := by
  simp only [aead_in_place, get_aead_key, get_aead_nonce,
    encrypt_in_place_detached, Except.ok.injEq, Prod.mk.injEq] at h
  obtain ⟨hn, ht, hc⟩ := h
  subst hn; subst ht; subst hc
  simp [adad_in_place, get_aead_key, decrypt_in_place_detached, xorKs_xorKs]

/-- Closed witness for C2 at associated data `[]` and plaintext `[0]`. -/
theorem C2_aead_roundtrip_witness :
    adad_in_place { rng := [], pfs := [], vfs := [] }
        (List.replicate 12 42) []
        (xorKs (List.replicate 32 37) (List.replicate 12 42) 0 [0])
        (macTag (List.replicate 32 37) (List.replicate 12 42) []
          (xorKs (List.replicate 32 37) (List.replicate 12 42) 0 [0])) =
      .ok [0] :=
  C2_aead_roundtrip { rng := [], pfs := [], vfs := [] } [] [0] _ _ _ rfl

/-- `adad_in_place` rejects whenever the recomputed digest does not match the
presented tag. -/
lemma adad_in_place_fail {st : ServiceResources} {nonce : AeadNonce}
    {ad buf : List Nat} {tag : AeadTag}
    (h : macTag (List.replicate 32 37) nonce ad buf ≠ tag) :
    adad_in_place st nonce ad buf tag = .error .AeadError := by
  simp only [adad_in_place, get_aead_key, decrypt_in_place_detached, if_neg h]

/-- C3: for every encryption produced by `aead_in_place`, changing the
ciphertext, the tag, or the associated data (each while the other two are
kept) makes `adad_in_place` return the `AeadError` error — no incorrect
plaintext is silently accepted.  In particular this covers flipping any
single bit of any one of the three. -/
theorem C3_aead_tamper_detection (st : ServiceResources) (ad buf : List Nat)
    (nonce : AeadNonce) (tag : AeadTag) (ct : List Nat)
    (h : aead_in_place st ad buf = .ok (nonce, tag, ct)) :
    (∀ ct', ct' ≠ ct →
      adad_in_place st nonce ad ct' tag = .error .AeadError) ∧
    (∀ tag', tag' ≠ tag →
      adad_in_place st nonce ad ct tag' = .error .AeadError) ∧
    (∀ ad', ad' ≠ ad →
      adad_in_place st nonce ad' ct tag = .error .AeadError) := by
  simp only [aead_in_place, get_aead_key, get_aead_nonce,
    encrypt_in_place_detached, Except.ok.injEq, Prod.mk.injEq] at h
  obtain ⟨hn, ht, hc⟩ := h
  subst hn; subst ht; subst hc
  refine ⟨?_, ?_, ?_⟩
  · intro ct' hne
    exact adad_in_place_fail (fun he => hne (macTag_inj he).2)
  · intro tag' hne
    exact adad_in_place_fail (fun he => hne he.symm)
  · intro ad' hne
    exact adad_in_place_fail (fun he => hne (macTag_inj he).1)

/-- Closed witness for C3: a tampered one-byte ciphertext is rejected with
`AeadError`. -/
theorem C3_aead_tamper_detection_witness :
    adad_in_place { rng := [], pfs := [], vfs := [] }
        (List.replicate 12 42) [] [78]
        (macTag (List.replicate 32 37) (List.replicate 12 42) []
          (xorKs (List.replicate 32 37) (List.replicate 12 42) 0 [0])) =
      .error .AeadError :=
  (C3_aead_tamper_detection { rng := [], pfs := [], vfs := [] } [] [0] _ _ _
    rfl).1 [78] (by decide)

/-- C4: for every `GenerateKeypair` request whose mechanism is not the
supported `Ed25519` variant, `reply_to` returns `MechanismNotAvailable`,
draws zero bytes from the entropy source, and performs zero store writes
(the full resource state — entropy stream and both stores — is returned
unchanged). -/
theorem C4_mechanism_gating (st : ServiceResources)
    (r : GenerateKeypairRequest) (h : r.mechanism ≠ .Ed25519) :
    reply_to st (.GenerateKeypair r) = (.error .MechanismNotAvailable, st) ∧
    (reply_to st (.GenerateKeypair r)).2.rng = st.rng ∧
    (reply_to st (.GenerateKeypair r)).2.pfs = st.pfs ∧
    (reply_to st (.GenerateKeypair r)).2.vfs = st.vfs := by
  cases hm : r.mechanism with
  | Ed25519 => exact absurd hm h
  | Unimplemented t => simp [reply_to, hm]

/-- Closed witness for C4 at an unsupported mechanism tag and a non-empty
entropy stream. -/
theorem C4_mechanism_gating_witness :
    reply_to { rng := [1, 2, 3], pfs := [], vfs := [] }
        (.GenerateKeypair ⟨.Unimplemented 0⟩) =
      (.error .MechanismNotAvailable,
       { rng := [1, 2, 3], pfs := [], vfs := [] }) :=
  (C4_mechanism_gating { rng := [1, 2, 3], pfs := [], vfs := [] }
    ⟨.Unimplemented 0⟩ (by decide)).1

/-- C5: `reply_to` maps `DummyRequest` to `Ok(DummyReply)`, maps
`GenerateKeypair` to the result of the key-generation routine
(`spec_generateKeypair`: the mechanism-gated dispatch into
`generate_ed25519_keypair`), maps every other request tag to the
`RequestNotAvailable` error, and every request yields exactly one reply or
one error. -/
theorem C5_dispatch_table (st : ServiceResources) :
    reply_to st .DummyRequest = (.ok .DummyReply, st) ∧
    (∀ r : GenerateKeypairRequest,
      reply_to st (.GenerateKeypair r) = spec_generateKeypair st r) ∧
    (∀ t : Nat,
      reply_to st (.NotYetImplemented t) =
        (.error .RequestNotAvailable, st)) ∧
    (∀ request : Request,
      (∃ rep, (reply_to st request).1 = .ok rep) ∨
      (∃ e, (reply_to st request).1 = .error e)) := by
  refine ⟨rfl, ?_, fun t => rfl, ?_⟩
  · intro r
    cases hm : r.mechanism <;> simp [reply_to, spec_generateKeypair, hm]
  · intro request
    cases hr : (reply_to st request).1 with
    | ok rep => exact Or.inl ⟨rep, rfl⟩
    | error e => exact Or.inr ⟨e, rfl⟩

/-- C6: a single `process()` call removes at most one request per endpoint,
in FIFO order: the endpoint collection keeps its length, and an endpoint
with `n ≥ 1` queued requests and a ready outbound queue has exactly `n - 1`
requests queued after the call. -/
theorem C6_at_most_one_per_cycle (s : Service) (i n : Nat)
    (hi : i < s.eps.length)
    (hready : ep_ready (s.eps.getD i default) = true)
    (hn : (s.eps.getD i default).recv.length = n)
    (_h1 : 1 ≤ n) :
    (process s).eps.length = s.eps.length ∧
    ((process s).eps.getD i default).recv.length = n - 1 := by
  constructor
  · exact processEps_length s.resources s.eps
  · have h := processEps_recv_getD s.resources s.eps i hi
    rw [process]
    rw [h, if_pos hready, List.length_tail, hn]

/-- Closed witness for C6: an endpoint with 3 queued requests and a ready
outbound queue has exactly 2 queued after one `process()` call. -/
theorem C6_at_most_one_per_cycle_witness :
    (process { eps := [{ recv := [.DummyRequest, .DummyRequest, .DummyRequest],
                         send := [], sendCap := 1 }],
               resources := { rng := [], pfs := [], vfs := [] } }).eps.length = 1 ∧
    ((process { eps := [{ recv := [.DummyRequest, .DummyRequest, .DummyRequest],
                          send := [], sendCap := 1 }],
                resources := { rng := [], pfs := [], vfs := [] } }).eps.getD 0
      default).recv.length = 2 :=
  C6_at_most_one_per_cycle
    { eps := [{ recv := [.DummyRequest, .DummyRequest, .DummyRequest],
                send := [], sendCap := 1 }],
      resources := { rng := [], pfs := [], vfs := [] } }
    0 3 (by decide) (by decide) (by decide) (by decide)

/-- C7: an endpoint whose outbound queue is not ready to accept a reply is
skipped entirely by `process()`: the endpoint (in particular its inbound
queue) is unchanged, and the single-endpoint step performs no Resource
Manager operation on its behalf (resources pass through untouched). -/
theorem C7_readiness_gating (s : Service) (i : Nat)
    (res : ServiceResources) (e : ServiceEndpoint)
    (hi : i < s.eps.length)
    (hnr : ep_ready (s.eps.getD i default) = false)
    (he : ep_ready e = false) :
    (process s).eps.getD i default = s.eps.getD i default ∧
    processEp res e = (e, res) := by
  constructor
  · rw [process]
    exact processEps_not_ready_getD s.resources s.eps i hi hnr
  · exact processEp_not_ready he

/-- Closed witness for C7: an endpoint with a full outbound queue keeps its
pending request across a `process()` call. -/
theorem C7_readiness_gating_witness :
    (process { eps := [{ recv := [.DummyRequest],
                         send := [.ok .DummyReply], sendCap := 1 }],
               resources := { rng := [], pfs := [], vfs := [] } }).eps.getD 0
        default =
      { recv := [.DummyRequest], send := [.ok .DummyReply], sendCap := 1 } ∧
    processEp { rng := [], pfs := [], vfs := [] }
        { recv := [.DummyRequest], send := [.ok .DummyReply], sendCap := 1 } =
      ({ recv := [.DummyRequest], send := [.ok .DummyReply], sendCap := 1 },
       { rng := [], pfs := [], vfs := [] }) :=
  C7_readiness_gating
    { eps := [{ recv := [.DummyRequest], send := [.ok .DummyReply],
                sendCap := 1 }],
      resources := { rng := [], pfs := [], vfs := [] } }
    0 { rng := [], pfs := [], vfs := [] }
    { recv := [.DummyRequest], send := [.ok .DummyReply], sendCap := 1 }
    (by decide) (by decide) (by decide)

/-- C8: `add_endpoint` on a service whose endpoint collection already holds
the fixed maximum number of endpoints fails, returning the endpoint to the
caller and leaving the registered collection (indeed the whole service)
unchanged; below the maximum it succeeds, appending the endpoint. -/
theorem C8_capacity_rejection (s : Service) (ep : ServiceEndpoint) :
    (s.eps.length = MAX_SERVICE_CLIENTS →
      add_endpoint s ep = (.error ep, s)) ∧
    (s.eps.length < MAX_SERVICE_CLIENTS →
      add_endpoint s ep = (.ok (), { s with eps := s.eps ++ [ep] })) := by
  constructor
  · intro h
    have : ¬ s.eps.length < MAX_SERVICE_CLIENTS := by omega
    simp [add_endpoint, this]
  · intro h
    simp [add_endpoint, h]

/-- Closed witness for C8: rejection at the maximum, success below it. -/
theorem C8_capacity_rejection_witness :
    add_endpoint
        { eps := [{ recv := [], send := [], sendCap := 1 },
                  { recv := [], send := [], sendCap := 1 }],
          resources := { rng := [], pfs := [], vfs := [] } }
        { recv := [], send := [], sendCap := 2 } =
      (.error { recv := [], send := [], sendCap := 2 },
       { eps := [{ recv := [], send := [], sendCap := 1 },
                 { recv := [], send := [], sendCap := 1 }],
         resources := { rng := [], pfs := [], vfs := [] } }) ∧
    add_endpoint { eps := [], resources := { rng := [], pfs := [], vfs := [] } }
        { recv := [], send := [], sendCap := 2 } =
      (.ok (),
       { eps := [{ recv := [], send := [], sendCap := 2 }],
         resources := { rng := [], pfs := [], vfs := [] } }) :=
  ⟨(C8_capacity_rejection
      { eps := [{ recv := [], send := [], sendCap := 1 },
                { recv := [], send := [], sendCap := 1 }],
        resources := { rng := [], pfs := [], vfs := [] } }
      { recv := [], send := [], sendCap := 2 }).1 (by decide),
   (C8_capacity_rejection
      { eps := [], resources := { rng := [], pfs := [], vfs := [] } }
      { recv := [], send := [], sendCap := 2 }).2 (by decide)⟩

/-- `rngRead` succeeds exactly as the all-or-nothing contract says when
enough entropy is left. -/
lemma rngRead_ok {st : ServiceResources} {n : Nat} (h : n ≤ st.rng.length) :
    rngRead st n =
      some ((st.rng.take n).map (· % 256), { st with rng := st.rng.drop n }) := by
  simp [rngRead, h]

/-- Characterization of a successful `generate_ed25519_keypair` call: with at
least 48 bytes of entropy available, it consumes exactly 48 (32 for the seed,
16 for the id), writes the seed to the volatile store under the path
`"/" ++ hex(id)`, leaves the persistent store untouched, and returns a
handle wrapping the id. -/
lemma generate_ed25519_keypair_ok {st : ServiceResources}
    (h : 48 ≤ st.rng.length) (r : GenerateKeypairRequest) :
    generate_ed25519_keypair st r =
      (.ok (.GenerateKey ⟨⟨⟨((st.rng.drop 32).take 16).map (· % 256)⟩⟩⟩),
       { rng := st.rng.drop 48,
         pfs := st.pfs,
         vfs := st.vfs ++
           [(47 :: hexBytes (((st.rng.drop 32).take 16).map (· % 256)),
             (st.rng.take 32).map (· % 256))] }) := by
  have h32 : 32 ≤ st.rng.length := by omega
  have h16 : 16 ≤ ({ st with rng := st.rng.drop 32 } : ServiceResources).rng.length := by
    simp; omega
  simp only [generate_ed25519_keypair, rngRead_ok h32, generate_unique_id,
    rngRead_ok h16, aead_in_place, get_aead_key, get_aead_nonce,
    encrypt_in_place_detached, store_serialized_key, UniqueId.hex]
  simp [List.drop_drop]

/-- C9: for every successful `GenerateKeypair(Ed25519)` call, the storage
path written is exactly 33 bytes — one `'/'` separator (ASCII 47) followed by
the 32-character lowercase hexadecimal encoding of the (pre-encryption)
`UniqueId` — and the returned `KeyHandle` wraps that same `UniqueId`. -/
theorem C9_path_is_slash_hex (st : ServiceResources)
    (h : 48 ≤ st.rng.length) :
    (reply_to st (.GenerateKeypair ⟨.Ed25519⟩)).1 =
      .ok (.GenerateKey ⟨⟨⟨((st.rng.drop 32).take 16).map (· % 256)⟩⟩⟩) ∧
    (reply_to st (.GenerateKeypair ⟨.Ed25519⟩)).2.vfs =
      st.vfs ++
        [(47 :: UniqueId.hex ⟨((st.rng.drop 32).take 16).map (· % 256)⟩,
          (st.rng.take 32).map (· % 256))] ∧
    (47 :: UniqueId.hex ⟨((st.rng.drop 32).take 16).map (· % 256)⟩).length
      = 33 ∧
    (∀ c ∈ UniqueId.hex ⟨((st.rng.drop 32).take 16).map (· % 256)⟩,
      isLowerHexAscii c = true) := by
  have hr : reply_to st (.GenerateKeypair ⟨.Ed25519⟩) =
      generate_ed25519_keypair st ⟨.Ed25519⟩ := rfl
  rw [hr, generate_ed25519_keypair_ok h]
  refine ⟨rfl, rfl, ?_, ?_⟩
  · simp [UniqueId.hex, hexBytes_length]
    omega
  · exact hexBytes_lower (by
      intro b hb
      simp only [List.mem_map] at hb
      obtain ⟨a, -, ha⟩ := hb
      omega)

/-- Closed witness for C9 at the entropy stream `[0, 1, …, 47]`. -/
theorem C9_path_is_slash_hex_witness :
    (reply_to { rng := List.range 48, pfs := [], vfs := [] }
        (.GenerateKeypair ⟨.Ed25519⟩)).1 =
      .ok (.GenerateKey
        ⟨⟨⟨(((List.range 48).drop 32).take 16).map (· % 256)⟩⟩⟩) ∧
    (reply_to { rng := List.range 48, pfs := [], vfs := [] }
        (.GenerateKeypair ⟨.Ed25519⟩)).2.vfs =
      [] ++
        [(47 :: UniqueId.hex
            ⟨(((List.range 48).drop 32).take 16).map (· % 256)⟩,
          ((List.range 48).take 32).map (· % 256))] ∧
    (47 :: UniqueId.hex
        ⟨(((List.range 48).drop 32).take 16).map (· % 256)⟩).length = 33 ∧
    (∀ c ∈ UniqueId.hex ⟨(((List.range 48).drop 32).take 16).map (· % 256)⟩,
      isLowerHexAscii c = true) :=
  C9_path_is_slash_hex { rng := List.range 48, pfs := [], vfs := [] }
    (by decide)

/-- C1: evaluation of a successful `GenerateKeypair(Ed25519)` request at the
concrete entropy stream `[0, 1, …, 47]`.  The claim (and spec §4.1 step 6)
says the raw 32-byte seed is persisted to the durable store with zero writes
to the volatile store; the code (`store_serialized_key`, service.rs:178)
writes it via `self.vfs` — the request succeeds, the persistent store `pfs`
receives zero writes, and the seed file lands in the volatile store `vfs`. -/
theorem C1_seed_written_to_volatile_not_durable :
    (reply_to { rng := List.range 48, pfs := [], vfs := [] }
        (.GenerateKeypair ⟨.Ed25519⟩)).1 =
      .ok (.GenerateKey ⟨⟨⟨[32, 33, 34, 35, 36, 37, 38, 39, 40, 41, 42, 43,
                            44, 45, 46, 47]⟩⟩⟩) ∧
    (reply_to { rng := List.range 48, pfs := [], vfs := [] }
        (.GenerateKeypair ⟨.Ed25519⟩)).2.pfs = [] ∧
    (reply_to { rng := List.range 48, pfs := [], vfs := [] }
        (.GenerateKeypair ⟨.Ed25519⟩)).2.vfs.map Prod.snd =
      [List.range 32] := by
  decide
